import Mathlib

/-!
Shallow embedding of the stream-voice repository's voice-recognition and
content-carousel subsystem, translated from the TypeScript sources:
`src/utils/browserSupport.ts`, `src/services/speechRecognitionPolyfill.ts`
(which also bundles `SpeechRecognitionService` and the movies API helpers),
`src/components/ContentCarousel.tsx` and `src/hooks/useVoiceControl.ts`.
-/

namespace StreamVoice

/-! ## String helpers mirroring the JavaScript string operations used -/

/-- Whether `p` is a prefix of `l`, mirroring the character-by-character
comparison implicit in JavaScript `String.prototype.includes`. -/
def startsWithChars : List Char → List Char → Bool
  | [], _ => true
  | _ :: _, [] => false
  | p :: ps, h :: hs => p == h && startsWithChars ps hs

/-- Whether `sub` occurs as a contiguous substring of `hay`. -/
def hasSub (sub : List Char) : List Char → Bool
  | [] => startsWithChars sub []
  | c :: t => startsWithChars sub (c :: t) || hasSub sub t

/-- Model of JavaScript `s.includes(sub)`. -/
def jsIncludes (s sub : String) : Bool :=
  hasSub sub.toList s.toList

/-- Model of JavaScript `s.toLowerCase()`, character by character (the
strings this program lowercases are ASCII, where the two agree). -/
def jsToLower (s : String) : String :=
  String.mk (s.data.map Char.toLower)

/-! ## Mode detector (`src/utils/browserSupport.ts`) -/

/-- The three recognition strategies a browser can be recommended. -/
inductive RecommendedMode
  | native
  | server
  | polyfill
deriving DecidableEq

/-- Runtime browser environment read by `detectBrowserSupport`: the
user-agent string, presence of the global speech-recognition constructors,
presence of the media-capture APIs, and the page origin. -/
structure BrowserEnv where
  userAgent : String
  hasSpeechRecognitionCtor : Bool
  hasWebkitSpeechRecognitionCtor : Bool
  hasMediaDevices : Bool
  hasGetUserMedia : Bool
  hasMediaRecorderGlobal : Bool
  protocol : String
  hostname : String

/-- Result record of `detectBrowserSupport` (interface `BrowserSupportInfo`). -/
structure BrowserSupportInfo where
  hasNativeSpeechRecognition : Bool
  hasMediaRecorder : Bool
  canUsePolyfill : Bool
  browserName : String
  recommendedMode : RecommendedMode
  supportMessage : String
deriving DecidableEq

/-- Browser-name detection from the lowercased user agent
(`browserSupport.ts` lines 22-34). -/
def detectBrowserName (userAgent : String) : String :=
  let ua := jsToLower userAgent
  if jsIncludes ua "chrome" && !jsIncludes ua "edg" then "Chrome"
  else if jsIncludes ua "firefox" then "Firefox"
  else if jsIncludes ua "safari" && !jsIncludes ua "chrome" then "Safari"
  else if jsIncludes ua "edg" then "Edge"
  else if jsIncludes ua "opera" || jsIncludes ua "opr" then "Opera"
  else "Unknown"

/-- Embedding of `detectBrowserSupport` (`browserSupport.ts` lines 19-78).
The source initializes `recommendedMode = 'polyfill'` and then walks an
if/else-if chain; the chain is rendered directly. -/
def detectBrowserSupport (env : BrowserEnv) : BrowserSupportInfo :=
  let browserName := detectBrowserName env.userAgent
  let hasNativeSpeechRecognition :=
    env.hasSpeechRecognitionCtor || env.hasWebkitSpeechRecognitionCtor
  let hasMediaRecorder :=
    env.hasMediaDevices && env.hasGetUserMedia && env.hasMediaRecorderGlobal
  let canUsePolyfill :=
    env.protocol == "https:" || env.hostname == "localhost" ||
      env.hostname == "127.0.0.1"
  if hasNativeSpeechRecognition then
    { hasNativeSpeechRecognition, hasMediaRecorder, canUsePolyfill, browserName
      recommendedMode := .native
      supportMessage := browserName ++ " has excellent native speech recognition support." }
  else if hasMediaRecorder && canUsePolyfill then
    { hasNativeSpeechRecognition, hasMediaRecorder, canUsePolyfill, browserName
      recommendedMode := .server
      supportMessage := browserName ++ " will use server-side speech recognition for best results." }
  else if canUsePolyfill then
    { hasNativeSpeechRecognition, hasMediaRecorder, canUsePolyfill, browserName
      recommendedMode := .polyfill
      supportMessage := browserName ++ " will use a JavaScript polyfill for speech recognition." }
  else
    { hasNativeSpeechRecognition, hasMediaRecorder, canUsePolyfill, browserName
      recommendedMode := .polyfill
      supportMessage := browserName ++ " has limited speech recognition support. Please use HTTPS or a supported browser." }

/-- Modelled from the spec: the four-step priority policy of section 4.1
(native constructor wins, else media recording plus secure context gives
server, else polyfill — steps 3 and 4 both yield polyfill). Stated from the
spec's words so the source function can be compared against it. -/
def specRecommendedMode (hasNative hasMediaRec secureContext : Bool) :
    RecommendedMode :=
  if hasNative then .native
  else if hasMediaRec && secureContext then .server
  else .polyfill

/-! ## Command dispatcher (`VideoPlayer` in `src/components/ContentCarousel.tsx`) -/

/-- Calls made on the media element by command actions (`video.play()`,
`video.pause()`). The skip-intro action assigns `video.currentTime`
directly rather than calling a media method, so it appears as a state
change, not a `MediaOp`. -/
inductive MediaOp
  | play
  | pause
deriving DecidableEq

/-- Playback-relevant state touched by the voice-command actions: the
React `isPlaying` flag, the media element's `currentTime`, and the
`showSubtitles` flag. -/
structure PlaybackState where
  playing : Bool
  currentTime : ℚ
  showSubtitles : Bool
deriving DecidableEq

/-- One entry of `VOICE_COMMANDS`: a substring-match predicate and an
action returning the updated playback state together with the media-element
calls it performs. -/
structure VoiceCommand where
  name : String
  matchCmd : String → Bool
  action : PlaybackState → PlaybackState × List MediaOp

/-- The `play` entry of `VOICE_COMMANDS`. -/
def playCommand : VoiceCommand where
  name := "play"
  matchCmd := fun cmd => jsIncludes cmd "play"
  action := fun s => ({ s with playing := true }, [MediaOp.play])

/-- The `pause` entry of `VOICE_COMMANDS`. -/
def pauseCommand : VoiceCommand where
  name := "pause"
  matchCmd := fun cmd => jsIncludes cmd "pause"
  action := fun s => ({ s with playing := false }, [MediaOp.pause])

/-- The `skipIntro` entry of `VOICE_COMMANDS` (`video.currentTime += 90`). -/
def skipIntroCommand : VoiceCommand where
  name := "skipIntro"
  matchCmd := fun cmd => jsIncludes cmd "skip intro"
  action := fun s => ({ s with currentTime := s.currentTime + 90 }, [])

/-- The `subtitlesOn` entry of `VOICE_COMMANDS`. -/
def subtitlesOnCommand : VoiceCommand where
  name := "subtitlesOn"
  matchCmd := fun cmd => jsIncludes cmd "subtitles on"
  action := fun s => ({ s with showSubtitles := true }, [])

/-- The `subtitlesOff` entry of `VOICE_COMMANDS`. -/
def subtitlesOffCommand : VoiceCommand where
  name := "subtitlesOff"
  matchCmd := fun cmd => jsIncludes cmd "subtitles off"
  action := fun s => ({ s with showSubtitles := false }, [])

/-- The fixed ordered command table (`ContentCarousel.tsx` lines 188-221;
`Object.values` preserves this insertion order). -/
def VOICE_COMMANDS : List VoiceCommand :=
  [playCommand, pauseCommand, skipIntroCommand, subtitlesOnCommand, subtitlesOffCommand]

/-- Short-circuit evaluation of `Object.values(VOICE_COMMANDS).some(...)`:
the first command whose predicate holds runs its action and iteration
stops; if none matches, the state is untouched and no media call is made. -/
def runFirstMatch : List VoiceCommand → String → PlaybackState →
    PlaybackState × List MediaOp
  | [], _, s => (s, [])
  | c :: rest, cmd, s =>
    if c.matchCmd cmd then c.action s else runFirstMatch rest cmd s

/-- Embedding of `handleCommand` (`ContentCarousel.tsx` lines 280-292). -/
def handleCommand (command : String) (s : PlaybackState) :
    PlaybackState × List MediaOp :=
  runFirstMatch VOICE_COMMANDS command s

/-! ## Recognition adapter (`SpeechRecognitionPolyfill` in
`src/services/speechRecognitionPolyfill.ts`) -/

/-- The adapter's fallback mode, fixed at construction by `detectBestMode`. -/
inductive FallbackMode
  | native
  | server
  | annyang
deriving DecidableEq

/-- Mutable fields of a `SpeechRecognitionPolyfill` instance relevant to
start/stop: the selected mode, the `isListening` flag, and whether the
`recognition` / `mediaRecorder` backend objects have been created
(non-null). -/
structure AdapterState where
  fallbackMode : FallbackMode
  isListening : Bool
  hasRecognition : Bool
  hasMediaRecorder : Bool
deriving DecidableEq

/-- Observable effects of a `start()` call: backend construction and
startup, microphone/recorder acquisition, audio submission, and the
user-supplied callbacks. The error-message text passed to `onError` is
elided. -/
inductive AdapterEffect
  | createNativeRecognition
  | nativeStart
  | loadAnnyang
  | annyangStart
  | getUserMediaStream
  | createMediaRecorderBackend
  | submitAudio
  | onStartCb
  | onEndCb
  | onErrorCb
deriving DecidableEq

/-- Outcome of the asynchronous parts of `start()`: whether the native
engine's `start()` succeeds and whether the annyang script loads. -/
structure StartEnv where
  nativeStartOk : Bool
  annyangLoadOk : Bool
deriving DecidableEq

namespace SpeechRecognitionPolyfill

/-- Embedding of `SpeechRecognitionPolyfill.start`
(`speechRecognitionPolyfill.ts` lines 78-95). The guard returns at once
when already listening. The `switch` has cases only for `native` and
`annyang`: `startServerRecognition` is commented out in the source, so in
`server` mode no backend work happens before `isListening` is set and
`onStart` fires. A thrown backend error is caught and reported through
`onError`, leaving `isListening` unset. -/
def start (env : StartEnv) (s : AdapterState) :
    AdapterState × List AdapterEffect :=
  if s.isListening then (s, [])
  else
    match s.fallbackMode with
    | .native =>
      if env.nativeStartOk then
        ({ s with hasRecognition := true, isListening := true },
          [.createNativeRecognition, .nativeStart, .onStartCb])
      else
        ({ s with hasRecognition := true },
          [.createNativeRecognition, .onErrorCb])
    | .server => ({ s with isListening := true }, [.onStartCb])
    | .annyang =>
      if env.annyangLoadOk then
        ({ s with isListening := true },
          [.loadAnnyang, .annyangStart, .onStartCb])
      else (s, [.loadAnnyang, .onErrorCb])

end SpeechRecognitionPolyfill

/-! ## Server-backend audio streaming (`SpeechRecognitionService.streamAudioToText`,
`speechRecognitionPolyfill.ts` lines 308-380 of the bundled file) -/

/-- State of the `onaudioprocess` loop: the `isProcessing` in-flight flag,
the number of buffered WAV chunks in `audioChunks`, and the transcripts
forwarded to `onTranscription` so far. -/
structure StreamState where
  isProcessing : Bool
  audioChunks : Nat
  transcripts : List String
deriving DecidableEq

/-- Completion of one in-flight handler body: `wavOk` is whether
`convertToWav` succeeded (on failure nothing was pushed), and `transcribeResult`
the outcome of `transcribeAudio` when a submission was due. All paths run the
`finally` clause clearing `isProcessing`; a caught error skips the
`audioChunks.length = 0` reset, so chunks pushed before a failed submission
stay buffered. -/
def handlerComplete (wavOk : Bool) (transcribeResult : Except Unit String)
    (s : StreamState) : StreamState :=
  if !wavOk then { s with isProcessing := false }
  else
    let chunks := s.audioChunks + 1
    if 2 ≤ chunks then
      match transcribeResult with
      | .error _ => { s with audioChunks := chunks, isProcessing := false }
      | .ok text =>
        { s with
          audioChunks := 0
          transcripts :=
            if text.trim = "" then s.transcripts
            else s.transcripts ++ [jsToLower text.trim]
          isProcessing := false }
    else { s with audioChunks := chunks, isProcessing := false }

/-- Events of the audio-processing loop: a new `onaudioprocess` callback
firing, or the in-flight handler body finishing. -/
inductive StreamEvent
  | fire
  | complete (wavOk : Bool) (transcribeResult : Except Unit String)

/-- One step of the loop. A `fire` while `isProcessing` is set skips the
chunk entirely (nothing queued, nothing buffered); otherwise it claims the
flag. A `complete` applies the handler body and always clears the flag. -/
def streamStep : StreamEvent → StreamState → StreamState
  | .fire, s => if s.isProcessing then s else { s with isProcessing := true }
  | .complete wavOk tr, s =>
    if s.isProcessing then handlerComplete wavOk tr s else s

/-! ## Movies API and content mapping (`moviesApi` part of the bundled
`speechRecognitionPolyfill.ts`, `src/types/movie.ts`, `src/types/content.ts`) -/

/-- Movie metadata record (`src/types/movie.ts`). -/
structure Movie where
  title : String
  videoURL : String
  year : Nat
  rating : ℚ
  duration : String
  cast : List String
  thumbnail : String
  subtitleUrl : Option String
  description : String
deriving DecidableEq

/-- Content record displayed by the carousel (`src/types/content.ts`);
`type` is `"movie"` or `"series"`. -/
structure Content where
  id : String
  title : String
  description : String
  imageUrl : String
  videoUrl : String
  type : String
  year : Nat
  rating : Option ℚ
  genres : List String
deriving DecidableEq

/-- Whitespace class of the regex `\s` as used on these ASCII titles (the
full JavaScript class also covers further Unicode space characters). -/
def isJsWs (c : Char) : Bool :=
  c == ' ' || c == '\t' || c == '\n' || c == '\r'

/-- Replace every maximal run of whitespace with a single hyphen,
mirroring `replace(/\s+/g, '-')`. The flag records whether the previous
character was whitespace, so a run emits exactly one hyphen. -/
def collapseWsAux : Bool → List Char → List Char
  | _, [] => []
  | prevWs, c :: cs =>
    if isJsWs c then
      if prevWs then collapseWsAux true cs
      else '-' :: collapseWsAux true cs
    else c :: collapseWsAux false cs

/-- The id derivation `movie.title.toLowerCase().replace(/\s+/g, '-')`. -/
def deriveId (title : String) : String :=
  String.mk (collapseWsAux false (jsToLower title).data)

/-- Embedding of `mapMovieToContent` (movies API section of the bundled
source, lines 474-483). -/
def mapMovieToContent (movie : Movie) : Content where
  id := deriveId movie.title
  title := movie.title
  description := movie.description
  imageUrl := movie.thumbnail
  videoUrl := movie.videoURL
  type := "movie"
  year := movie.year
  rating := some movie.rating
  genres := []

/-- Possible outcomes of the `GET /api/movies` round trip inside
`fetchMovies`: the fetch rejects, the response is non-2xx, the JSON is not
an array, or a movie array arrives. -/
inductive FetchOutcome
  | networkError
  | httpError (status : Nat) (statusText : String)
  | parseNotArray
  | ok (movies : List Movie)

/-- Embedding of `fetchMovies`: every failure path is caught, logged and
converted to the empty list — the function never throws. -/
def fetchMovies : FetchOutcome → List Movie
  | .ok movies => movies
  | _ => []

/-- Stable insertion of `x` into a list already ordered by `le`. -/
def insertBy (le : Content → Content → Bool) (x : Content) :
    List Content → List Content
  | [] => [x]
  | y :: ys => if le x y then x :: y :: ys else y :: insertBy le x ys

/-- Stable sort by `le`, modelling `Array.prototype.sort` with a
consistent comparator (the ECMAScript sort is required to be stable;
`le a b` holds when the comparator puts `a` at or before `b`). -/
def sortBy (le : Content → Content → Bool) : List Content → List Content
  | [] => []
  | x :: xs => insertBy le x (sortBy le xs)

/-- Comparator order of `(a, b) => b.year - a.year`: descending year. -/
def yearDescLe (a b : Content) : Bool :=
  decide (b.year ≤ a.year)

/-- Comparator order of `(a, b) => (b.rating || 0) - (a.rating || 0)`:
descending rating, missing rating read as 0. -/
def ratingDescLe (a b : Content) : Bool :=
  decide (b.rating.getD 0 ≤ a.rating.getD 0)

/-- Query filtering of `fetchContent` (`ContentCarousel.tsx` lines 49-76):
the special categories sort and cap at 10, `action movies` passes all
content through, any other non-empty query does term search over title and
description. -/
def filterByQuery (query : String) (allContent : List Content) : List Content :=
  if query == "" then allContent
  else
    let searchTerms := (jsToLower query).splitOn " "
    if query == "trending" then (sortBy ratingDescLe allContent).take 10
    else if query == "popular shows" then (sortBy ratingDescLe allContent).take 10
    else if query == "new releases" then (sortBy yearDescLe allContent).take 10
    else if query == "action movies" then allContent
    else
      allContent.filter (fun content =>
        searchTerms.all (fun term =>
          jsIncludes (jsToLower content.title) term ||
          jsIncludes (jsToLower content.description) term))

/-- What one run of the carousel's `fetchContent` effect does: schedule an
automatic retry (the `setTimeout` bumping `retryCount`), surface an error
message, or display a list of items. -/
inductive FetchResult
  | scheduleRetry
  | errorMsg (msg : String)
  | items (l : List Content)
deriving DecidableEq

/-- Embedding of the carousel's `fetchContent` (`ContentCarousel.tsx`
lines 25-95) as a function of the fetch outcome, the query and the current
retry count. The catch branch producing "Failed to load content: ..." is
unreachable from fetch failures because `fetchMovies` never throws. -/
def fetchContent (outcome : FetchOutcome) (query : String) (retryCount : Nat) :
    FetchResult :=
  let movies := fetchMovies outcome
  if movies.length = 0 then
    if retryCount < 3 then .scheduleRetry
    else .errorMsg "No movies available."
  else
    let filteredContent := filterByQuery query (movies.map mapMovieToContent)
    if filteredContent.length = 0 then
      .errorMsg "No results found for this category."
    else .items filteredContent

/-! ## WAV encoding (`SpeechRecognitionService.convertToWav`,
`speechRecognitionPolyfill.ts` lines 385-426 of the bundled file).
Float samples are modelled as rationals; the clamp, scale and truncation
on the clamped range are exact, so no rounding behaviour is lost. -/

/-- The clamp `Math.max(-1, Math.min(1, audioData[i]))`. -/
def clampSample (x : ℚ) : ℚ := max (-1) (min 1 x)

/-- Truncation toward zero: the ToInt16 conversion JavaScript applies when
assigning to an `Int16Array` element (the scaled values here are always in
16-bit range, so the conversion never wraps). -/
def ratTruncToInt (x : ℚ) : Int := if x < 0 then ⌈x⌉ else ⌊x⌋

/-- The per-sample quantization `s < 0 ? s * 0x8000 : s * 0x7FFF` applied
after clamping. -/
def quantizeSample (x : ℚ) : Int :=
  let s := clampSample x
  if s < 0 then ratTruncToInt (s * 32768) else ratTruncToInt (s * 32767)

/-- One `view.setUint8(off, v)` on the byte buffer (value taken mod 256);
an out-of-range offset cannot occur in this program. -/
def setByte (buf : List Nat) (off v : Nat) : List Nat :=
  buf.set off (v % 256)

/-- Little-endian `view.setUint16(off, v, true)`: low byte then high byte. -/
def setU16le (buf : List Nat) (off v : Nat) : List Nat :=
  setByte (setByte buf off v) (off + 1) (v / 256)

/-- Little-endian `view.setUint32(off, v, true)`, written as its low and
high 16-bit halves; the four bytes produced are identical to the
`DataView` write. -/
def setU32le (buf : List Nat) (off v : Nat) : List Nat :=
  setU16le (setU16le buf off (v % 65536)) (off + 2) (v / 65536)

/-- Little-endian `view.setInt16(off, v, true)`: two's-complement wrap to
16 bits, then the two bytes. -/
def setI16le (buf : List Nat) (off : Nat) (v : Int) : List Nat :=
  setU16le buf off (v % 65536).toNat

/-- The source's `writeString` helper: one `setUint8` per character code. -/
def writeChars : List Char → Nat → List Nat → List Nat
  | [], _, buf => buf
  | c :: cs, off, buf => writeChars cs (off + 1) (setByte buf off c.toNat)

/-- The sample loop `view.setInt16(44 + i * 2, pcmData[i], true)`. -/
def writeSamples : List Int → Nat → List Nat → List Nat
  | [], _, buf => buf
  | v :: vs, off, buf => writeSamples vs (off + 2) (setI16le buf off v)

/-- Embedding of `convertToWav`: quantize the samples, allocate the
`44 + 2n`-byte buffer (an `ArrayBuffer` is zero-initialized) and perform
the source's writes in order. -/
def convertToWav (audioData : List ℚ) (sampleRate : Nat) : List Nat :=
  let pcmData := audioData.map quantizeSample
  let buf0 := List.replicate (44 + pcmData.length * 2) 0
  let b1 := writeChars "RIFF".data 0 buf0
  let b2 := setU32le b1 4 (36 + pcmData.length * 2)
  let b3 := writeChars "WAVE".data 8 b2
  let b4 := writeChars "fmt ".data 12 b3
  let b5 := setU32le b4 16 16
  let b6 := setU16le b5 20 1
  let b7 := setU16le b6 22 1
  let b8 := setU32le b7 24 sampleRate
  let b9 := setU32le b8 28 (sampleRate * 2)
  let b10 := setU16le b9 32 2
  let b11 := setU16le b10 34 16
  let b12 := writeChars "data".data 36 b11
  let b13 := setU32le b12 40 (pcmData.length * 2)
  writeSamples pcmData 44 b13

/-- The two little-endian bytes of a 16-bit value. -/
def u16leBytes (v : Nat) : List Nat := [v % 256, v / 256 % 256]

/-- The four little-endian bytes of a 32-bit value, as its low and high
16-bit halves. -/
def u32leBytes (v : Nat) : List Nat :=
  u16leBytes (v % 65536) ++ u16leBytes (v / 65536)

/-- The two little-endian bytes of a signed 16-bit sample
(two's-complement). -/
def i16leBytes (v : Int) : List Nat := u16leBytes (v % 65536).toNat

/-- The byte codes of an ASCII tag string. -/
def asciiBytes (s : String) : List Nat :=
  s.data.map (fun c => c.toNat % 256)

/-- Modelled from the spec: the standard 44-byte RIFF/WAVE header — chunk
size `36 + 2n`, `fmt ` subchunk of size 16 with PCM format tag 1, one
channel, the sample rate, byte rate `sampleRate * 2`, block align 2,
16 bits per sample, and a `data` chunk of size `2n`. Stated from the
spec's field list for comparison with the source's write sequence. -/
def wavHeaderBytes (numSamples sampleRate : Nat) : List Nat :=
  asciiBytes "RIFF" ++ u32leBytes (36 + numSamples * 2) ++
  asciiBytes "WAVE" ++ asciiBytes "fmt " ++ u32leBytes 16 ++
  u16leBytes 1 ++ u16leBytes 1 ++ u32leBytes sampleRate ++
  u32leBytes (sampleRate * 2) ++ u16leBytes 2 ++ u16leBytes 16 ++
  asciiBytes "data" ++ u32leBytes (numSamples * 2)

/-- Concrete movie with year 2020 for the new-releases ordering check. -/
def movie2020 : Movie :=
  ⟨"Alpha", "a.mp4", 2020, 7, "2h", [], "a.jpg", none, "First film"⟩

/-- Concrete movie with year 2023 for the new-releases ordering check. -/
def movie2023 : Movie :=
  ⟨"Beta", "b.mp4", 2023, 8, "2h", [], "b.jpg", none, "Second film"⟩

/-- Concrete movie with year 1999 for the new-releases ordering check. -/
def movie1999 : Movie :=
  ⟨"Gamma", "c.mp4", 1999, 6, "2h", [], "c.jpg", none, "Third film"⟩

/-- Concrete movie titled "Foo Bar" for the id-collision check. -/
def fooBarMovie : Movie :=
  ⟨"Foo Bar", "foo.mp4", 2001, 5, "1h", [], "f.jpg", none, "d1"⟩

/-- Concrete movie titled "foo-bar" for the id-collision check. -/
def fooBarHyphenMovie : Movie :=
  ⟨"foo-bar", "bar.mp4", 2002, 6, "1h", [], "g.jpg", none, "d2"⟩

end StreamVoice

namespace StreamVoice

/-- Helper: `runFirstMatch` on a list split as `pre ++ c :: post`, where no
command of `pre` matches and `c` does, runs exactly the action of `c`. -/
theorem runFirstMatch_first (cmd : String) (s : PlaybackState) :
    ∀ (pre : List VoiceCommand) (c : VoiceCommand) (post : List VoiceCommand),
      (∀ c0 ∈ pre, c0.matchCmd cmd = false) → c.matchCmd cmd = true →
      runFirstMatch (pre ++ c :: post) cmd s = c.action s := by
  intro pre
  induction pre with
  | nil =>
    intro c post _ hc
    simp [runFirstMatch, hc]
  | cons a t ih =>
    intro c post hpre hc
    have ha : a.matchCmd cmd = false := hpre a (by simp)
    simp only [List.cons_append, runFirstMatch, ha, Bool.false_eq_true, if_false]
    exact ih c post (fun c0 hc0 => hpre c0 (by simp [hc0])) hc

/-- Helper: setting the element just past a prefix overwrites the head of
the suffix. -/
theorem set_at_append_length {α : Type} (h : List α) (x v : α) (t : List α) :
    (h ++ x :: t).set h.length v = h ++ v :: t := by
  induction h with
  | nil => rfl
  | cons a l ih => simp [List.set, ih]

/-- Helper: one byte write at the boundary of a known prefix. -/
theorem setByte_fill (h : List Nat) (off : Nat) (hoff : h.length = off)
    (a : Nat) (t : List Nat) (v : Nat) :
    setByte (h ++ a :: t) off v = h ++ (v % 256) :: t := by
  subst hoff
  exact set_at_append_length h a (v % 256) t

/-- Helper: one 16-bit write at the boundary of a known prefix. -/
theorem setU16le_fill (h : List Nat) (off : Nat) (hoff : h.length = off)
    (a b : Nat) (t : List Nat) (v : Nat) :
    setU16le (h ++ a :: b :: t) off v = h ++ u16leBytes v ++ t := by
  unfold setU16le
  rw [setByte_fill h off hoff a (b :: t) v]
  have hshape : h ++ (v % 256) :: b :: t = (h ++ [v % 256]) ++ b :: t := by simp
  rw [hshape, setByte_fill (h ++ [v % 256]) (off + 1) (by simp [hoff]) b t (v / 256)]
  simp [u16leBytes]

/-- Helper: one 32-bit write at the boundary of a known prefix. -/
theorem setU32le_fill (h : List Nat) (off : Nat) (hoff : h.length = off)
    (a b c d : Nat) (t : List Nat) (v : Nat) :
    setU32le (h ++ a :: b :: c :: d :: t) off v = h ++ u32leBytes v ++ t := by
  unfold setU32le
  rw [setU16le_fill h off hoff a b (c :: d :: t) (v % 65536)]
  have hshape : h ++ u16leBytes (v % 65536) ++ c :: d :: t =
      (h ++ u16leBytes (v % 65536)) ++ c :: d :: t := by simp
  rw [hshape, setU16le_fill (h ++ u16leBytes (v % 65536)) (off + 2)
    (by simp [u16leBytes, hoff]) c d t (v / 65536)]
  simp [u32leBytes]

/-- Helper: a tag-string write at the boundary of a known prefix,
consuming one buffer cell per character. -/
theorem writeChars_fill : ∀ (cs : List Char) (h pad t : List Nat) (off : Nat),
    h.length = off → pad.length = cs.length →
    writeChars cs off (h ++ pad ++ t) =
      h ++ cs.map (fun c => c.toNat % 256) ++ t := by
  intro cs
  induction cs with
  | nil =>
    intro h pad t off hoff hpad
    have hnil : pad = [] := List.length_eq_zero.mp (by simp [hpad])
    subst hnil
    simp [writeChars]
  | cons c cs ih =>
    intro h pad t off hoff hpad
    cases pad with
    | nil => simp at hpad
    | cons p pad =>
      have hb : h ++ (p :: pad) ++ t = h ++ p :: (pad ++ t) := by simp
      rw [hb]
      show writeChars cs (off + 1) (setByte (h ++ p :: (pad ++ t)) off c.toNat) = _
      rw [setByte_fill h off hoff p (pad ++ t) c.toNat]
      have hnext := ih (h ++ [c.toNat % 256]) pad t (off + 1)
        (by simp [hoff]) (by simpa using hpad)
      have hb2 : h ++ [c.toNat % 256] ++ pad ++ t =
          h ++ (c.toNat % 256) :: (pad ++ t) := by simp
      rw [hb2] at hnext
      rw [hnext]
      simp

/-- Helper: the sample-writing loop at the boundary of a known prefix
turns the zero-filled data region into the little-endian sample bytes. -/
theorem writeSamples_fill : ∀ (vs : List Int) (h : List Nat) (off : Nat),
    h.length = off →
    writeSamples vs off (h ++ List.replicate (vs.length * 2) 0) =
      h ++ vs.flatMap i16leBytes := by
  intro vs
  induction vs with
  | nil =>
    intro h off hoff
    simp [writeSamples]
  | cons v vs ih =>
    intro h off hoff
    have hrep : List.replicate ((v :: vs).length * 2) (0 : Nat) =
        0 :: 0 :: List.replicate (vs.length * 2) 0 := by
      have h2 : (v :: vs).length * 2 = 2 + vs.length * 2 := by
        simp [List.length_cons]
        ring
      rw [h2, List.replicate_add]
      rfl
    rw [hrep]
    show writeSamples vs (off + 2)
      (setI16le (h ++ 0 :: 0 :: List.replicate (vs.length * 2) 0) off v) = _
    have hset : setI16le (h ++ 0 :: 0 :: List.replicate (vs.length * 2) 0) off v =
        h ++ i16leBytes v ++ List.replicate (vs.length * 2) 0 := by
      unfold setI16le i16leBytes
      exact setU16le_fill h off hoff 0 0 _ _
    rw [hset]
    have hnext := ih (h ++ i16leBytes v) (off + 2)
      (by simp [i16leBytes, u16leBytes, hoff])
    simpa [List.append_assoc] using hnext

/-- Helper: each sample contributes exactly two bytes. -/
theorem length_flatMap_i16leBytes (vs : List Int) :
    (vs.flatMap i16leBytes).length = vs.length * 2 := by
  induction vs with
  | nil => simp
  | cons v vs ih =>
    simp [i16leBytes, u16leBytes, ih]
    ring

/-- Helper: `convertToWav` emits exactly the 44-byte header followed by
the quantized samples in little-endian order: the source's offset-indexed
buffer writes cover offsets 0 through 43 and then `44 + 2i` without gap or
overlap, so the buffer decomposes as this concatenation. -/
theorem convertToWav_bytes (audioData : List ℚ) (sampleRate : Nat) :
    convertToWav audioData sampleRate =
      wavHeaderBytes (audioData.map quantizeSample).length sampleRate ++
        (audioData.map quantizeSample).flatMap i16leBytes := by
  simp only [convertToWav]
  generalize audioData.map quantizeSample = pcm
  rw [List.replicate_add]
  have e1 : writeChars "RIFF".data 0
      (List.replicate 44 (0 : Nat) ++ List.replicate (pcm.length * 2) 0) =
      [82, 73, 70, 70] ++ (List.replicate 40 (0 : Nat) ++ List.replicate (pcm.length * 2) 0) := by
    have hb : (List.replicate 44 (0 : Nat) ++ List.replicate (pcm.length * 2) 0) =
        (([] : List Nat) ++ [0, 0, 0, 0]) ++ (List.replicate 40 (0 : Nat) ++ List.replicate (pcm.length * 2) 0) := rfl
    rw [hb]
    exact writeChars_fill "RIFF".data
        (([] : List Nat)) [0, 0, 0, 0]
        ((List.replicate 40 (0 : Nat) ++ List.replicate (pcm.length * 2) 0)) 0
        (by simp [u32leBytes, u16leBytes]) rfl
  have e2 : setU32le
      ([82, 73, 70, 70] ++ (List.replicate 40 (0 : Nat) ++ List.replicate (pcm.length * 2) 0)) 4 (36 + pcm.length * 2) =
      [82, 73, 70, 70] ++ u32leBytes (36 + pcm.length * 2) ++ (List.replicate 36 (0 : Nat) ++ List.replicate (pcm.length * 2) 0) := by
    have hb : ([82, 73, 70, 70] ++ (List.replicate 40 (0 : Nat) ++ List.replicate (pcm.length * 2) 0)) =
        [82, 73, 70, 70] ++ 0 :: 0 :: 0 :: 0 :: ((List.replicate 36 (0 : Nat) ++ List.replicate (pcm.length * 2) 0)) := rfl
    rw [hb]
    exact setU32le_fill
        ([82, 73, 70, 70]) 4
        (by simp [u32leBytes, u16leBytes]) 0 0 0 0
        ((List.replicate 36 (0 : Nat) ++ List.replicate (pcm.length * 2) 0)) (36 + pcm.length * 2)
  have e3 : writeChars "WAVE".data 8
      ([82, 73, 70, 70] ++ u32leBytes (36 + pcm.length * 2) ++ (List.replicate 36 (0 : Nat) ++ List.replicate (pcm.length * 2) 0)) =
      [82, 73, 70, 70] ++ u32leBytes (36 + pcm.length * 2) ++ [87, 65, 86, 69] ++ (List.replicate 32 (0 : Nat) ++ List.replicate (pcm.length * 2) 0) := by
    have hb : ([82, 73, 70, 70] ++ u32leBytes (36 + pcm.length * 2) ++ (List.replicate 36 (0 : Nat) ++ List.replicate (pcm.length * 2) 0)) =
        ([82, 73, 70, 70] ++ u32leBytes (36 + pcm.length * 2) ++ [0, 0, 0, 0]) ++ (List.replicate 32 (0 : Nat) ++ List.replicate (pcm.length * 2) 0) := rfl
    rw [hb]
    exact writeChars_fill "WAVE".data
        ([82, 73, 70, 70] ++ u32leBytes (36 + pcm.length * 2)) [0, 0, 0, 0]
        ((List.replicate 32 (0 : Nat) ++ List.replicate (pcm.length * 2) 0)) 8
        (by simp [u32leBytes, u16leBytes]) rfl
  have e4 : writeChars "fmt ".data 12
      ([82, 73, 70, 70] ++ u32leBytes (36 + pcm.length * 2) ++ [87, 65, 86, 69] ++ (List.replicate 32 (0 : Nat) ++ List.replicate (pcm.length * 2) 0)) =
      [82, 73, 70, 70] ++ u32leBytes (36 + pcm.length * 2) ++ [87, 65, 86, 69] ++ [102, 109, 116, 32] ++ (List.replicate 28 (0 : Nat) ++ List.replicate (pcm.length * 2) 0) := by
    have hb : ([82, 73, 70, 70] ++ u32leBytes (36 + pcm.length * 2) ++ [87, 65, 86, 69] ++ (List.replicate 32 (0 : Nat) ++ List.replicate (pcm.length * 2) 0)) =
        ([82, 73, 70, 70] ++ u32leBytes (36 + pcm.length * 2) ++ [87, 65, 86, 69] ++ [0, 0, 0, 0]) ++ (List.replicate 28 (0 : Nat) ++ List.replicate (pcm.length * 2) 0) := rfl
    rw [hb]
    exact writeChars_fill "fmt ".data
        ([82, 73, 70, 70] ++ u32leBytes (36 + pcm.length * 2) ++ [87, 65, 86, 69]) [0, 0, 0, 0]
        ((List.replicate 28 (0 : Nat) ++ List.replicate (pcm.length * 2) 0)) 12
        (by simp [u32leBytes, u16leBytes]) rfl
  have e5 : setU32le
      ([82, 73, 70, 70] ++ u32leBytes (36 + pcm.length * 2) ++ [87, 65, 86, 69] ++ [102, 109, 116, 32] ++ (List.replicate 28 (0 : Nat) ++ List.replicate (pcm.length * 2) 0)) 16 16 =
      [82, 73, 70, 70] ++ u32leBytes (36 + pcm.length * 2) ++ [87, 65, 86, 69] ++ [102, 109, 116, 32] ++ u32leBytes 16 ++ (List.replicate 24 (0 : Nat) ++ List.replicate (pcm.length * 2) 0) := by
    have hb : ([82, 73, 70, 70] ++ u32leBytes (36 + pcm.length * 2) ++ [87, 65, 86, 69] ++ [102, 109, 116, 32] ++ (List.replicate 28 (0 : Nat) ++ List.replicate (pcm.length * 2) 0)) =
        [82, 73, 70, 70] ++ u32leBytes (36 + pcm.length * 2) ++ [87, 65, 86, 69] ++ [102, 109, 116, 32] ++ 0 :: 0 :: 0 :: 0 :: ((List.replicate 24 (0 : Nat) ++ List.replicate (pcm.length * 2) 0)) := rfl
    rw [hb]
    exact setU32le_fill
        ([82, 73, 70, 70] ++ u32leBytes (36 + pcm.length * 2) ++ [87, 65, 86, 69] ++ [102, 109, 116, 32]) 16
        (by simp [u32leBytes, u16leBytes]) 0 0 0 0
        ((List.replicate 24 (0 : Nat) ++ List.replicate (pcm.length * 2) 0)) 16
  have e6 : setU16le
      ([82, 73, 70, 70] ++ u32leBytes (36 + pcm.length * 2) ++ [87, 65, 86, 69] ++ [102, 109, 116, 32] ++ u32leBytes 16 ++ (List.replicate 24 (0 : Nat) ++ List.replicate (pcm.length * 2) 0)) 20 1 =
      [82, 73, 70, 70] ++ u32leBytes (36 + pcm.length * 2) ++ [87, 65, 86, 69] ++ [102, 109, 116, 32] ++ u32leBytes 16 ++ u16leBytes 1 ++ (List.replicate 22 (0 : Nat) ++ List.replicate (pcm.length * 2) 0) := by
    have hb : ([82, 73, 70, 70] ++ u32leBytes (36 + pcm.length * 2) ++ [87, 65, 86, 69] ++ [102, 109, 116, 32] ++ u32leBytes 16 ++ (List.replicate 24 (0 : Nat) ++ List.replicate (pcm.length * 2) 0)) =
        [82, 73, 70, 70] ++ u32leBytes (36 + pcm.length * 2) ++ [87, 65, 86, 69] ++ [102, 109, 116, 32] ++ u32leBytes 16 ++ 0 :: 0 :: ((List.replicate 22 (0 : Nat) ++ List.replicate (pcm.length * 2) 0)) := rfl
    rw [hb]
    exact setU16le_fill
        ([82, 73, 70, 70] ++ u32leBytes (36 + pcm.length * 2) ++ [87, 65, 86, 69] ++ [102, 109, 116, 32] ++ u32leBytes 16) 20
        (by simp [u32leBytes, u16leBytes]) 0 0
        ((List.replicate 22 (0 : Nat) ++ List.replicate (pcm.length * 2) 0)) 1
  have e7 : setU16le
      ([82, 73, 70, 70] ++ u32leBytes (36 + pcm.length * 2) ++ [87, 65, 86, 69] ++ [102, 109, 116, 32] ++ u32leBytes 16 ++ u16leBytes 1 ++ (List.replicate 22 (0 : Nat) ++ List.replicate (pcm.length * 2) 0)) 22 1 =
      [82, 73, 70, 70] ++ u32leBytes (36 + pcm.length * 2) ++ [87, 65, 86, 69] ++ [102, 109, 116, 32] ++ u32leBytes 16 ++ u16leBytes 1 ++ u16leBytes 1 ++ (List.replicate 20 (0 : Nat) ++ List.replicate (pcm.length * 2) 0) := by
    have hb : ([82, 73, 70, 70] ++ u32leBytes (36 + pcm.length * 2) ++ [87, 65, 86, 69] ++ [102, 109, 116, 32] ++ u32leBytes 16 ++ u16leBytes 1 ++ (List.replicate 22 (0 : Nat) ++ List.replicate (pcm.length * 2) 0)) =
        [82, 73, 70, 70] ++ u32leBytes (36 + pcm.length * 2) ++ [87, 65, 86, 69] ++ [102, 109, 116, 32] ++ u32leBytes 16 ++ u16leBytes 1 ++ 0 :: 0 :: ((List.replicate 20 (0 : Nat) ++ List.replicate (pcm.length * 2) 0)) := rfl
    rw [hb]
    exact setU16le_fill
        ([82, 73, 70, 70] ++ u32leBytes (36 + pcm.length * 2) ++ [87, 65, 86, 69] ++ [102, 109, 116, 32] ++ u32leBytes 16 ++ u16leBytes 1) 22
        (by simp [u32leBytes, u16leBytes]) 0 0
        ((List.replicate 20 (0 : Nat) ++ List.replicate (pcm.length * 2) 0)) 1
  have e8 : setU32le
      ([82, 73, 70, 70] ++ u32leBytes (36 + pcm.length * 2) ++ [87, 65, 86, 69] ++ [102, 109, 116, 32] ++ u32leBytes 16 ++ u16leBytes 1 ++ u16leBytes 1 ++ (List.replicate 20 (0 : Nat) ++ List.replicate (pcm.length * 2) 0)) 24 sampleRate =
      [82, 73, 70, 70] ++ u32leBytes (36 + pcm.length * 2) ++ [87, 65, 86, 69] ++ [102, 109, 116, 32] ++ u32leBytes 16 ++ u16leBytes 1 ++ u16leBytes 1 ++ u32leBytes sampleRate ++ (List.replicate 16 (0 : Nat) ++ List.replicate (pcm.length * 2) 0) := by
    have hb : ([82, 73, 70, 70] ++ u32leBytes (36 + pcm.length * 2) ++ [87, 65, 86, 69] ++ [102, 109, 116, 32] ++ u32leBytes 16 ++ u16leBytes 1 ++ u16leBytes 1 ++ (List.replicate 20 (0 : Nat) ++ List.replicate (pcm.length * 2) 0)) =
        [82, 73, 70, 70] ++ u32leBytes (36 + pcm.length * 2) ++ [87, 65, 86, 69] ++ [102, 109, 116, 32] ++ u32leBytes 16 ++ u16leBytes 1 ++ u16leBytes 1 ++ 0 :: 0 :: 0 :: 0 :: ((List.replicate 16 (0 : Nat) ++ List.replicate (pcm.length * 2) 0)) := rfl
    rw [hb]
    exact setU32le_fill
        ([82, 73, 70, 70] ++ u32leBytes (36 + pcm.length * 2) ++ [87, 65, 86, 69] ++ [102, 109, 116, 32] ++ u32leBytes 16 ++ u16leBytes 1 ++ u16leBytes 1) 24
        (by simp [u32leBytes, u16leBytes]) 0 0 0 0
        ((List.replicate 16 (0 : Nat) ++ List.replicate (pcm.length * 2) 0)) sampleRate
  have e9 : setU32le
      ([82, 73, 70, 70] ++ u32leBytes (36 + pcm.length * 2) ++ [87, 65, 86, 69] ++ [102, 109, 116, 32] ++ u32leBytes 16 ++ u16leBytes 1 ++ u16leBytes 1 ++ u32leBytes sampleRate ++ (List.replicate 16 (0 : Nat) ++ List.replicate (pcm.length * 2) 0)) 28 (sampleRate * 2) =
      [82, 73, 70, 70] ++ u32leBytes (36 + pcm.length * 2) ++ [87, 65, 86, 69] ++ [102, 109, 116, 32] ++ u32leBytes 16 ++ u16leBytes 1 ++ u16leBytes 1 ++ u32leBytes sampleRate ++ u32leBytes (sampleRate * 2) ++ (List.replicate 12 (0 : Nat) ++ List.replicate (pcm.length * 2) 0) := by
    have hb : ([82, 73, 70, 70] ++ u32leBytes (36 + pcm.length * 2) ++ [87, 65, 86, 69] ++ [102, 109, 116, 32] ++ u32leBytes 16 ++ u16leBytes 1 ++ u16leBytes 1 ++ u32leBytes sampleRate ++ (List.replicate 16 (0 : Nat) ++ List.replicate (pcm.length * 2) 0)) =
        [82, 73, 70, 70] ++ u32leBytes (36 + pcm.length * 2) ++ [87, 65, 86, 69] ++ [102, 109, 116, 32] ++ u32leBytes 16 ++ u16leBytes 1 ++ u16leBytes 1 ++ u32leBytes sampleRate ++ 0 :: 0 :: 0 :: 0 :: ((List.replicate 12 (0 : Nat) ++ List.replicate (pcm.length * 2) 0)) := rfl
    rw [hb]
    exact setU32le_fill
        ([82, 73, 70, 70] ++ u32leBytes (36 + pcm.length * 2) ++ [87, 65, 86, 69] ++ [102, 109, 116, 32] ++ u32leBytes 16 ++ u16leBytes 1 ++ u16leBytes 1 ++ u32leBytes sampleRate) 28
        (by simp [u32leBytes, u16leBytes]) 0 0 0 0
        ((List.replicate 12 (0 : Nat) ++ List.replicate (pcm.length * 2) 0)) (sampleRate * 2)
  have e10 : setU16le
      ([82, 73, 70, 70] ++ u32leBytes (36 + pcm.length * 2) ++ [87, 65, 86, 69] ++ [102, 109, 116, 32] ++ u32leBytes 16 ++ u16leBytes 1 ++ u16leBytes 1 ++ u32leBytes sampleRate ++ u32leBytes (sampleRate * 2) ++ (List.replicate 12 (0 : Nat) ++ List.replicate (pcm.length * 2) 0)) 32 2 =
      [82, 73, 70, 70] ++ u32leBytes (36 + pcm.length * 2) ++ [87, 65, 86, 69] ++ [102, 109, 116, 32] ++ u32leBytes 16 ++ u16leBytes 1 ++ u16leBytes 1 ++ u32leBytes sampleRate ++ u32leBytes (sampleRate * 2) ++ u16leBytes 2 ++ (List.replicate 10 (0 : Nat) ++ List.replicate (pcm.length * 2) 0) := by
    have hb : ([82, 73, 70, 70] ++ u32leBytes (36 + pcm.length * 2) ++ [87, 65, 86, 69] ++ [102, 109, 116, 32] ++ u32leBytes 16 ++ u16leBytes 1 ++ u16leBytes 1 ++ u32leBytes sampleRate ++ u32leBytes (sampleRate * 2) ++ (List.replicate 12 (0 : Nat) ++ List.replicate (pcm.length * 2) 0)) =
        [82, 73, 70, 70] ++ u32leBytes (36 + pcm.length * 2) ++ [87, 65, 86, 69] ++ [102, 109, 116, 32] ++ u32leBytes 16 ++ u16leBytes 1 ++ u16leBytes 1 ++ u32leBytes sampleRate ++ u32leBytes (sampleRate * 2) ++ 0 :: 0 :: ((List.replicate 10 (0 : Nat) ++ List.replicate (pcm.length * 2) 0)) := rfl
    rw [hb]
    exact setU16le_fill
        ([82, 73, 70, 70] ++ u32leBytes (36 + pcm.length * 2) ++ [87, 65, 86, 69] ++ [102, 109, 116, 32] ++ u32leBytes 16 ++ u16leBytes 1 ++ u16leBytes 1 ++ u32leBytes sampleRate ++ u32leBytes (sampleRate * 2)) 32
        (by simp [u32leBytes, u16leBytes]) 0 0
        ((List.replicate 10 (0 : Nat) ++ List.replicate (pcm.length * 2) 0)) 2
  have e11 : setU16le
      ([82, 73, 70, 70] ++ u32leBytes (36 + pcm.length * 2) ++ [87, 65, 86, 69] ++ [102, 109, 116, 32] ++ u32leBytes 16 ++ u16leBytes 1 ++ u16leBytes 1 ++ u32leBytes sampleRate ++ u32leBytes (sampleRate * 2) ++ u16leBytes 2 ++ (List.replicate 10 (0 : Nat) ++ List.replicate (pcm.length * 2) 0)) 34 16 =
      [82, 73, 70, 70] ++ u32leBytes (36 + pcm.length * 2) ++ [87, 65, 86, 69] ++ [102, 109, 116, 32] ++ u32leBytes 16 ++ u16leBytes 1 ++ u16leBytes 1 ++ u32leBytes sampleRate ++ u32leBytes (sampleRate * 2) ++ u16leBytes 2 ++ u16leBytes 16 ++ (List.replicate 8 (0 : Nat) ++ List.replicate (pcm.length * 2) 0) := by
    have hb : ([82, 73, 70, 70] ++ u32leBytes (36 + pcm.length * 2) ++ [87, 65, 86, 69] ++ [102, 109, 116, 32] ++ u32leBytes 16 ++ u16leBytes 1 ++ u16leBytes 1 ++ u32leBytes sampleRate ++ u32leBytes (sampleRate * 2) ++ u16leBytes 2 ++ (List.replicate 10 (0 : Nat) ++ List.replicate (pcm.length * 2) 0)) =
        [82, 73, 70, 70] ++ u32leBytes (36 + pcm.length * 2) ++ [87, 65, 86, 69] ++ [102, 109, 116, 32] ++ u32leBytes 16 ++ u16leBytes 1 ++ u16leBytes 1 ++ u32leBytes sampleRate ++ u32leBytes (sampleRate * 2) ++ u16leBytes 2 ++ 0 :: 0 :: ((List.replicate 8 (0 : Nat) ++ List.replicate (pcm.length * 2) 0)) := rfl
    rw [hb]
    exact setU16le_fill
        ([82, 73, 70, 70] ++ u32leBytes (36 + pcm.length * 2) ++ [87, 65, 86, 69] ++ [102, 109, 116, 32] ++ u32leBytes 16 ++ u16leBytes 1 ++ u16leBytes 1 ++ u32leBytes sampleRate ++ u32leBytes (sampleRate * 2) ++ u16leBytes 2) 34
        (by simp [u32leBytes, u16leBytes]) 0 0
        ((List.replicate 8 (0 : Nat) ++ List.replicate (pcm.length * 2) 0)) 16
  have e12 : writeChars "data".data 36
      ([82, 73, 70, 70] ++ u32leBytes (36 + pcm.length * 2) ++ [87, 65, 86, 69] ++ [102, 109, 116, 32] ++ u32leBytes 16 ++ u16leBytes 1 ++ u16leBytes 1 ++ u32leBytes sampleRate ++ u32leBytes (sampleRate * 2) ++ u16leBytes 2 ++ u16leBytes 16 ++ (List.replicate 8 (0 : Nat) ++ List.replicate (pcm.length * 2) 0)) =
      [82, 73, 70, 70] ++ u32leBytes (36 + pcm.length * 2) ++ [87, 65, 86, 69] ++ [102, 109, 116, 32] ++ u32leBytes 16 ++ u16leBytes 1 ++ u16leBytes 1 ++ u32leBytes sampleRate ++ u32leBytes (sampleRate * 2) ++ u16leBytes 2 ++ u16leBytes 16 ++ [100, 97, 116, 97] ++ (List.replicate 4 (0 : Nat) ++ List.replicate (pcm.length * 2) 0) := by
    have hb : ([82, 73, 70, 70] ++ u32leBytes (36 + pcm.length * 2) ++ [87, 65, 86, 69] ++ [102, 109, 116, 32] ++ u32leBytes 16 ++ u16leBytes 1 ++ u16leBytes 1 ++ u32leBytes sampleRate ++ u32leBytes (sampleRate * 2) ++ u16leBytes 2 ++ u16leBytes 16 ++ (List.replicate 8 (0 : Nat) ++ List.replicate (pcm.length * 2) 0)) =
        ([82, 73, 70, 70] ++ u32leBytes (36 + pcm.length * 2) ++ [87, 65, 86, 69] ++ [102, 109, 116, 32] ++ u32leBytes 16 ++ u16leBytes 1 ++ u16leBytes 1 ++ u32leBytes sampleRate ++ u32leBytes (sampleRate * 2) ++ u16leBytes 2 ++ u16leBytes 16 ++ [0, 0, 0, 0]) ++ (List.replicate 4 (0 : Nat) ++ List.replicate (pcm.length * 2) 0) := rfl
    rw [hb]
    exact writeChars_fill "data".data
        ([82, 73, 70, 70] ++ u32leBytes (36 + pcm.length * 2) ++ [87, 65, 86, 69] ++ [102, 109, 116, 32] ++ u32leBytes 16 ++ u16leBytes 1 ++ u16leBytes 1 ++ u32leBytes sampleRate ++ u32leBytes (sampleRate * 2) ++ u16leBytes 2 ++ u16leBytes 16) [0, 0, 0, 0]
        ((List.replicate 4 (0 : Nat) ++ List.replicate (pcm.length * 2) 0)) 36
        (by simp [u32leBytes, u16leBytes]) rfl
  have e13 : setU32le
      ([82, 73, 70, 70] ++ u32leBytes (36 + pcm.length * 2) ++ [87, 65, 86, 69] ++ [102, 109, 116, 32] ++ u32leBytes 16 ++ u16leBytes 1 ++ u16leBytes 1 ++ u32leBytes sampleRate ++ u32leBytes (sampleRate * 2) ++ u16leBytes 2 ++ u16leBytes 16 ++ [100, 97, 116, 97] ++ (List.replicate 4 (0 : Nat) ++ List.replicate (pcm.length * 2) 0)) 40 (pcm.length * 2) =
      [82, 73, 70, 70] ++ u32leBytes (36 + pcm.length * 2) ++ [87, 65, 86, 69] ++ [102, 109, 116, 32] ++ u32leBytes 16 ++ u16leBytes 1 ++ u16leBytes 1 ++ u32leBytes sampleRate ++ u32leBytes (sampleRate * 2) ++ u16leBytes 2 ++ u16leBytes 16 ++ [100, 97, 116, 97] ++ u32leBytes (pcm.length * 2) ++ List.replicate (pcm.length * 2) 0 := by
    have hb : ([82, 73, 70, 70] ++ u32leBytes (36 + pcm.length * 2) ++ [87, 65, 86, 69] ++ [102, 109, 116, 32] ++ u32leBytes 16 ++ u16leBytes 1 ++ u16leBytes 1 ++ u32leBytes sampleRate ++ u32leBytes (sampleRate * 2) ++ u16leBytes 2 ++ u16leBytes 16 ++ [100, 97, 116, 97] ++ (List.replicate 4 (0 : Nat) ++ List.replicate (pcm.length * 2) 0)) =
        [82, 73, 70, 70] ++ u32leBytes (36 + pcm.length * 2) ++ [87, 65, 86, 69] ++ [102, 109, 116, 32] ++ u32leBytes 16 ++ u16leBytes 1 ++ u16leBytes 1 ++ u32leBytes sampleRate ++ u32leBytes (sampleRate * 2) ++ u16leBytes 2 ++ u16leBytes 16 ++ [100, 97, 116, 97] ++ 0 :: 0 :: 0 :: 0 :: (List.replicate (pcm.length * 2) 0) := rfl
    rw [hb]
    exact setU32le_fill
        ([82, 73, 70, 70] ++ u32leBytes (36 + pcm.length * 2) ++ [87, 65, 86, 69] ++ [102, 109, 116, 32] ++ u32leBytes 16 ++ u16leBytes 1 ++ u16leBytes 1 ++ u32leBytes sampleRate ++ u32leBytes (sampleRate * 2) ++ u16leBytes 2 ++ u16leBytes 16 ++ [100, 97, 116, 97]) 40
        (by simp [u32leBytes, u16leBytes]) 0 0 0 0
        (List.replicate (pcm.length * 2) 0) (pcm.length * 2)
  have e14 : writeSamples pcm 44
      ([82, 73, 70, 70] ++ u32leBytes (36 + pcm.length * 2) ++ [87, 65, 86, 69] ++ [102, 109, 116, 32] ++ u32leBytes 16 ++ u16leBytes 1 ++ u16leBytes 1 ++ u32leBytes sampleRate ++ u32leBytes (sampleRate * 2) ++ u16leBytes 2 ++ u16leBytes 16 ++ [100, 97, 116, 97] ++ u32leBytes (pcm.length * 2) ++ List.replicate (pcm.length * 2) 0) =
      [82, 73, 70, 70] ++ u32leBytes (36 + pcm.length * 2) ++ [87, 65, 86, 69] ++ [102, 109, 116, 32] ++ u32leBytes 16 ++ u16leBytes 1 ++ u16leBytes 1 ++ u32leBytes sampleRate ++ u32leBytes (sampleRate * 2) ++ u16leBytes 2 ++ u16leBytes 16 ++ [100, 97, 116, 97] ++ u32leBytes (pcm.length * 2) ++ pcm.flatMap i16leBytes := by
    have hb : ([82, 73, 70, 70] ++ u32leBytes (36 + pcm.length * 2) ++ [87, 65, 86, 69] ++ [102, 109, 116, 32] ++ u32leBytes 16 ++ u16leBytes 1 ++ u16leBytes 1 ++ u32leBytes sampleRate ++ u32leBytes (sampleRate * 2) ++ u16leBytes 2 ++ u16leBytes 16 ++ [100, 97, 116, 97] ++ u32leBytes (pcm.length * 2) ++ List.replicate (pcm.length * 2) 0) =
        ([82, 73, 70, 70] ++ u32leBytes (36 + pcm.length * 2) ++ [87, 65, 86, 69] ++ [102, 109, 116, 32] ++ u32leBytes 16 ++ u16leBytes 1 ++ u16leBytes 1 ++ u32leBytes sampleRate ++ u32leBytes (sampleRate * 2) ++ u16leBytes 2 ++ u16leBytes 16 ++ [100, 97, 116, 97] ++ u32leBytes (pcm.length * 2)) ++ List.replicate (pcm.length * 2) 0 := rfl
    rw [hb]
    exact writeSamples_fill pcm
      ([82, 73, 70, 70] ++ u32leBytes (36 + pcm.length * 2) ++ [87, 65, 86, 69] ++ [102, 109, 116, 32] ++ u32leBytes 16 ++ u16leBytes 1 ++ u16leBytes 1 ++ u32leBytes sampleRate ++ u32leBytes (sampleRate * 2) ++ u16leBytes 2 ++ u16leBytes 16 ++ [100, 97, 116, 97] ++ u32leBytes (pcm.length * 2)) 44
      (by simp [u32leBytes, u16leBytes])

  rw [e1, e2, e3, e4, e5, e6, e7, e8, e9, e10, e11, e12, e13, e14]
  rfl

/-- Helper: every quantized sample lies in the signed 16-bit range. -/
theorem quantizeSample_range (x : ℚ) :
    -32768 ≤ quantizeSample x ∧ quantizeSample x ≤ 32767 := by
  have hs1 : (-1 : ℚ) ≤ clampSample x := le_max_left _ _
  have hs2 : clampSample x ≤ 1 := max_le (by norm_num) (min_le_left _ _)
  unfold quantizeSample
  dsimp only
  by_cases hneg : clampSample x < 0
  · rw [if_pos hneg]
    unfold ratTruncToInt
    rw [if_pos (mul_neg_of_neg_of_pos hneg (by norm_num))]
    have hlo : (-32768 : ℚ) ≤ clampSample x * 32768 := by
      have := mul_le_mul_of_nonneg_right hs1 (by norm_num : (0 : ℚ) ≤ 32768)
      linarith
    have hhi : clampSample x * 32768 ≤ 0 := by
      have := mul_le_mul_of_nonneg_right hneg.le (by norm_num : (0 : ℚ) ≤ 32768)
      linarith
    constructor
    · calc (-32768 : ℤ) = ⌈((-32768 : ℤ) : ℚ)⌉ := (Int.ceil_intCast _).symm
        _ ≤ ⌈clampSample x * 32768⌉ := Int.ceil_mono (by push_cast; linarith)
    · have h0 : ⌈clampSample x * 32768⌉ ≤ (0 : ℤ) :=
        Int.ceil_le.mpr (by push_cast; linarith)
      omega
  · rw [if_neg hneg]
    unfold ratTruncToInt
    have hge : (0 : ℚ) ≤ clampSample x := not_lt.mp hneg
    have hlo : (0 : ℚ) ≤ clampSample x * 32767 :=
      mul_nonneg hge (by norm_num)
    have hhi : clampSample x * 32767 ≤ 32767 := by
      have := mul_le_mul_of_nonneg_right hs2 (by norm_num : (0 : ℚ) ≤ 32767)
      linarith
    rw [if_neg (not_lt.mpr hlo)]
    constructor
    · have h0 : (0 : ℤ) ≤ ⌊clampSample x * 32767⌋ := Int.floor_nonneg.mpr hlo
      omega
    · calc ⌊clampSample x * 32767⌋ ≤ ⌊((32767 : ℤ) : ℚ)⌋ :=
          Int.floor_mono (by push_cast; linarith)
        _ = 32767 := Int.floor_intCast _

/-- C1: for every combination of capability flags, `detectBrowserSupport`
returns one of the three modes, chosen exactly by the spec's priority
policy, and in the fully-degraded case (no native constructor, no secure
context) the support message is the degraded one. The function is total,
so it never fails. -/
theorem detectBrowserSupport_mode_policy (env : BrowserEnv) :
    ((detectBrowserSupport env).recommendedMode = .native ∨
      (detectBrowserSupport env).recommendedMode = .server ∨
      (detectBrowserSupport env).recommendedMode = .polyfill) ∧
    (detectBrowserSupport env).recommendedMode =
      specRecommendedMode (detectBrowserSupport env).hasNativeSpeechRecognition
        (detectBrowserSupport env).hasMediaRecorder
        (detectBrowserSupport env).canUsePolyfill ∧
    ((detectBrowserSupport env).hasNativeSpeechRecognition = false →
      (detectBrowserSupport env).canUsePolyfill = false →
      (detectBrowserSupport env).supportMessage =
        detectBrowserName env.userAgent ++
          " has limited speech recognition support. Please use HTTPS or a supported browser.") := by
  unfold detectBrowserSupport specRecommendedMode
  cases h1 : env.hasSpeechRecognitionCtor || env.hasWebkitSpeechRecognitionCtor <;>
    cases h2 : env.hasMediaDevices && env.hasGetUserMedia && env.hasMediaRecorderGlobal <;>
      cases h3 : (env.protocol == "https:" || env.hostname == "localhost" ||
          env.hostname == "127.0.0.1") <;>
        simp [h1, h2, h3]

/-- C1 witness: the theorem applied to a concrete environment with every
capability absent, discharging the two hypotheses of the degraded-message
conjunct. -/
theorem detectBrowserSupport_mode_policy_witness :
    (detectBrowserSupport
        ⟨"test", false, false, false, false, false, "http:", "example.com"⟩).supportMessage =
      "Unknown has limited speech recognition support. Please use HTTPS or a supported browser." := by
  have h := detectBrowserSupport_mode_policy
    ⟨"test", false, false, false, false, false, "http:", "example.com"⟩
  exact (h.2.2 (by decide) (by decide)).trans (by decide)

/-- C2: dispatching the transcript "please play the movie" runs the play
action exactly once (the returned media-call list is exactly `[play]` and
the playing flag is set) and no other command's action; in general, when
`VOICE_COMMANDS` splits as `pre ++ c :: post` with no command of `pre`
matching and `c` matching, the dispatcher's result is exactly `c`'s action
— later entries contribute nothing. -/
theorem handleCommand_first_match_wins :
    (∀ s : PlaybackState,
      handleCommand "please play the movie" s =
        ({ s with playing := true }, [MediaOp.play])) ∧
    ∀ (cmd : String) (s : PlaybackState) (pre : List VoiceCommand)
      (c : VoiceCommand) (post : List VoiceCommand),
      VOICE_COMMANDS = pre ++ c :: post →
      (∀ c0 ∈ pre, c0.matchCmd cmd = false) → c.matchCmd cmd = true →
      handleCommand cmd s = c.action s := by
  constructor
  · intro s
    have hmatch : playCommand.matchCmd "please play the movie" = true := by decide
    simp only [handleCommand, VOICE_COMMANDS, runFirstMatch, hmatch, if_true]
    rfl
  · intro cmd s pre c post hsplit hpre hc
    rw [handleCommand, hsplit]
    exact runFirstMatch_first cmd s pre c post hpre hc

/-- C2 witness: the general first-match conjunct applied to the transcript
"pause it" with `pre = [playCommand]`, discharging the hypotheses that the
play predicate rejects it and the pause predicate accepts it. -/
theorem handleCommand_first_match_wins_witness :
    handleCommand "pause it" ⟨true, 0, true⟩ = (⟨false, 0, true⟩, [MediaOp.pause]) := by
  have h := handleCommand_first_match_wins.2 "pause it" ⟨true, 0, true⟩
    [playCommand] pauseCommand [skipIntroCommand, subtitlesOnCommand, subtitlesOffCommand]
    rfl (by intro c0 hc0; simp only [List.mem_singleton] at hc0; subst hc0; decide)
    (by decide)
  exact h.trans (by decide)

/-- C8: a transcript containing none of the five command substrings leaves
playback state unchanged — the playing flag, the playback position and the
subtitle flag keep their values, and no media operation is invoked. -/
theorem handleCommand_no_match_frame (cmd : String) (s : PlaybackState)
    (h1 : jsIncludes cmd "play" = false)
    (h2 : jsIncludes cmd "pause" = false)
    (h3 : jsIncludes cmd "skip intro" = false)
    (h4 : jsIncludes cmd "subtitles on" = false)
    (h5 : jsIncludes cmd "subtitles off" = false) :
    handleCommand cmd s = (s, []) := by
  simp [handleCommand, VOICE_COMMANDS, runFirstMatch, playCommand, pauseCommand,
    skipIntroCommand, subtitlesOnCommand, subtitlesOffCommand, h1, h2, h3, h4, h5]

/-- C8 witness: the frame theorem applied to the transcript "hello there",
discharging all five no-match hypotheses by evaluation. -/
theorem handleCommand_no_match_frame_witness :
    handleCommand "hello there" ⟨true, 42, false⟩ = (⟨true, 42, false⟩, []) :=
  handleCommand_no_match_frame "hello there" ⟨true, 42, false⟩
    (by decide) (by decide) (by decide) (by decide) (by decide)

/-- C3: in server mode, `start()` on a non-listening adapter performs no
backend work — the effect list is exactly the `onStart` callback, with no
microphone acquisition, no `MediaRecorder` construction and no audio
submission, and the backend-object fields stay null — yet `isListening`
becomes true, so the session reports Listening with no recognition
running. -/
theorem server_start_reports_listening_without_backend
    (env : StartEnv) (s : AdapterState)
    (hmode : s.fallbackMode = .server) (hidle : s.isListening = false) :
    SpeechRecognitionPolyfill.start env s =
      ({ s with isListening := true }, [AdapterEffect.onStartCb]) ∧
    AdapterEffect.getUserMediaStream ∉ (SpeechRecognitionPolyfill.start env s).2 ∧
    AdapterEffect.createMediaRecorderBackend ∉ (SpeechRecognitionPolyfill.start env s).2 ∧
    AdapterEffect.submitAudio ∉ (SpeechRecognitionPolyfill.start env s).2 ∧
    (SpeechRecognitionPolyfill.start env s).1.hasMediaRecorder = s.hasMediaRecorder ∧
    (SpeechRecognitionPolyfill.start env s).1.hasRecognition = s.hasRecognition ∧
    (SpeechRecognitionPolyfill.start env s).1.isListening = true := by
  simp [SpeechRecognitionPolyfill.start, hmode, hidle]

/-- C3 witness: the theorem applied to a fresh server-mode adapter state. -/
theorem server_start_reports_listening_without_backend_witness :
    SpeechRecognitionPolyfill.start ⟨true, true⟩ ⟨.server, false, false, false⟩ =
      (⟨.server, true, false, false⟩, [AdapterEffect.onStartCb]) :=
  (server_start_reports_listening_without_backend ⟨true, true⟩
    ⟨.server, false, false, false⟩ rfl rfl).1

/-- C4: the `onaudioprocess` handler fires while a submission is in flight
skip the chunk completely (the state, including the chunk buffer, is
untouched — nothing is queued); the in-flight flag is cleared by the
handler's completion on every path, success or failure; and therefore the
very next callback after any completion is processed, not dropped. -/
theorem streamAudioToText_inflight_guard :
    (∀ s : StreamState, s.isProcessing = true → streamStep .fire s = s) ∧
    (∀ (s : StreamState) (wavOk : Bool) (tr : Except Unit String),
      s.isProcessing = true →
      (streamStep (.complete wavOk tr) s).isProcessing = false) ∧
    (∀ (s : StreamState) (wavOk : Bool) (tr : Except Unit String),
      s.isProcessing = true →
      streamStep .fire (streamStep (.complete wavOk tr) s) =
        { streamStep (.complete wavOk tr) s with isProcessing := true }) := by
  have hcomplete : ∀ (wavOk : Bool) (tr : Except Unit String) (s : StreamState),
      (handlerComplete wavOk tr s).isProcessing = false := by
    intro wavOk tr s
    cases tr with
    | error e =>
      unfold handlerComplete
      dsimp only
      split
      · rfl
      · split <;> rfl
    | ok text =>
      unfold handlerComplete
      dsimp only
      split
      · rfl
      · split <;> rfl
  refine ⟨?_, ?_, ?_⟩
  · intro s h
    simp [streamStep, h]
  · intro s wavOk tr h
    simp [streamStep, h, hcomplete]
  · intro s wavOk tr h
    have h2 : (streamStep (.complete wavOk tr) s).isProcessing = false := by
      simp [streamStep, h, hcomplete]
    generalize streamStep (.complete wavOk tr) s = s2 at h2 ⊢
    simp [streamStep, h2]

/-- C4 witness: a callback firing on an in-flight state with one buffered
chunk drops the chunk and changes nothing. -/
theorem streamAudioToText_inflight_guard_witness :
    streamStep .fire ⟨true, 1, []⟩ = ⟨true, 1, []⟩ :=
  streamAudioToText_inflight_guard.1 ⟨true, 1, []⟩ rfl

/-- C6: a second `start()` on a session that is already Listening is a
no-op — the state is returned unchanged with no effects (no backend
construction, no error); consequently a second `start()` immediately after
a successful `start()` leaves the adapter state identical. -/
theorem start_on_listening_session_noop (env env2 : StartEnv) (s : AdapterState) :
    (s.isListening = true → SpeechRecognitionPolyfill.start env s = (s, [])) ∧
    ((SpeechRecognitionPolyfill.start env s).1.isListening = true →
      SpeechRecognitionPolyfill.start env2 (SpeechRecognitionPolyfill.start env s).1 =
        ((SpeechRecognitionPolyfill.start env s).1, [])) := by
  constructor
  · intro h
    simp [SpeechRecognitionPolyfill.start, h]
  · intro h
    generalize SpeechRecognitionPolyfill.start env s = r at h ⊢
    simp [SpeechRecognitionPolyfill.start, h]

/-- C6 witness: a listening native-mode session receiving `start()` again
keeps its exact state and produces no effects. -/
theorem start_on_listening_session_noop_witness :
    SpeechRecognitionPolyfill.start ⟨true, true⟩ ⟨.native, true, true, false⟩ =
      (⟨.native, true, true, false⟩, []) :=
  (start_on_listening_session_noop ⟨true, true⟩ ⟨true, true⟩
    ⟨.native, true, true, false⟩).1 rfl

/-- C5 counterexample: a network-level fetch failure does NOT surface a
descriptive error immediately — at retry count 0 the carousel schedules an
automatic retry, and after the retries are exhausted the surfaced message
is the generic "No movies available.", not a descriptive fetch error. -/
theorem fetch_failure_retries_counterexample :
    fetchContent .networkError "" 0 = .scheduleRetry ∧
    fetchContent .networkError "" 3 = .errorMsg "No movies available." :=
  ⟨rfl, rfl⟩

/-- C5 amended: `fetchMovies` converts every network/HTTP/parse failure
into an empty movie list (logging only, never throwing), so the carousel
treats such failures exactly like a successful fetch of an empty list: it
schedules an automatic retry while the retry count is below 3, and at 3 it
surfaces "No movies available." with the manual retry action. No
descriptive fetch error is ever surfaced for them. -/
theorem fetch_failure_behaves_as_empty_result (outcome : FetchOutcome)
    (query : String) (r : Nat) (hfail : fetchMovies outcome = []) :
    fetchContent outcome query r = fetchContent (.ok []) query r ∧
    (r < 3 → fetchContent outcome query r = .scheduleRetry) ∧
    (3 ≤ r → fetchContent outcome query r = .errorMsg "No movies available.") := by
  refine ⟨?_, ?_, ?_⟩
  · simp only [fetchContent, hfail]
    rfl
  · intro hr
    simp [fetchContent, hfail, hr]
  · intro hr
    simp [fetchContent, hfail, Nat.not_lt.mpr hr]

/-- C5 witness: the amended theorem applied to a parse-level failure at
retry count 1, discharging the emptiness and bound hypotheses. -/
theorem fetch_failure_behaves_as_empty_result_witness :
    fetchContent .parseNotArray "" 1 = .scheduleRetry :=
  (fetch_failure_behaves_as_empty_result .parseNotArray "" 1 rfl).2.1 (by decide)

/-- C9: for the query "new releases", movies with years [2020, 2023, 1999]
are displayed ordered [2023, 2020, 1999] (years descending), and for every
movie list this query's result holds at most 10 items. -/
theorem new_releases_sorted_and_capped :
    ((filterByQuery "new releases"
        ([movie2020, movie2023, movie1999].map mapMovieToContent)).map
          Content.year = [2023, 2020, 1999]) ∧
    (fetchContent (.ok [movie2020, movie2023, movie1999]) "new releases" 0 =
      .items ((filterByQuery "new releases"
        ([movie2020, movie2023, movie1999].map mapMovieToContent)))) ∧
    ∀ movies : List Movie,
      (filterByQuery "new releases" (movies.map mapMovieToContent)).length ≤ 10 := by
  refine ⟨by decide, by decide, ?_⟩
  intro movies
  show ((sortBy yearDescLe (movies.map mapMovieToContent)).take 10).length ≤ 10
  rw [List.length_take]
  exact Nat.min_le_left _ _

/-- C7: for every sample list, `convertToWav` at the fixed 16 kHz rate
produces exactly the 44-byte RIFF/WAVE header (PCM format tag 1, one
channel, 16 bits per sample, sample rate 16000, byte rate 32000, block
align 2, correct chunk-size fields) followed by the samples as 16-bit
little-endian integers, where each sample is first clamped to [-1, 1] and
then quantized (negatives scaled by 0x8000, non-negatives by 0x7FFF), so
every emitted sample value lies in [-32768, 32767]. -/
theorem convertToWav_layout_and_range (audioData : List ℚ) :
    convertToWav audioData 16000 =
      wavHeaderBytes audioData.length 16000 ++
        (audioData.map quantizeSample).flatMap i16leBytes ∧
    (wavHeaderBytes audioData.length 16000).length = 44 ∧
    (convertToWav audioData 16000).length = 44 + audioData.length * 2 ∧
    ∀ x ∈ audioData, -32768 ≤ quantizeSample x ∧ quantizeSample x ≤ 32767 := by
  have hmap : (audioData.map quantizeSample).length = audioData.length :=
    List.length_map _ _
  have h1 := convertToWav_bytes audioData 16000
  rw [hmap] at h1
  have hhdr : (wavHeaderBytes audioData.length 16000).length = 44 := by
    simp [wavHeaderBytes, asciiBytes, u32leBytes, u16leBytes,
      (by rfl : "RIFF".data.length = 4), (by rfl : "WAVE".data.length = 4),
      (by rfl : "fmt ".data.length = 4), (by rfl : "data".data.length = 4)]
  refine ⟨h1, hhdr, ?_, fun x _ => quantizeSample_range x⟩
  rw [h1, List.length_append, hhdr, length_flatMap_i16leBytes, hmap]

/-- C7 witness: the sample-range conjunct applied to the concrete input
list holding one half, discharging the membership hypothesis. -/
theorem convertToWav_layout_and_range_witness :
    -32768 ≤ quantizeSample (1 / 2) ∧ quantizeSample (1 / 2) ≤ 32767 :=
  (convertToWav_layout_and_range [1 / 2]).2.2.2 (1 / 2) (by simp)

/-- C10: `mapMovieToContent` derives the content id from the title alone by
lowercasing and collapsing whitespace runs to hyphens, so the movies titled
"Foo Bar" and "foo-bar" collide on id "foo-bar"; the derivation is total
and depends only on the title. -/
theorem mapMovieToContent_id_from_title :
    ((mapMovieToContent fooBarMovie).id = "foo-bar" ∧
      (mapMovieToContent fooBarHyphenMovie).id = "foo-bar" ∧
      (mapMovieToContent fooBarMovie).id = (mapMovieToContent fooBarHyphenMovie).id) ∧
    (∀ m : Movie, (mapMovieToContent m).id = deriveId m.title) ∧
    (∀ m1 m2 : Movie, m1.title = m2.title →
      (mapMovieToContent m1).id = (mapMovieToContent m2).id) := by
  refine ⟨⟨by decide, by decide, by decide⟩, fun m => rfl, ?_⟩
  intro m1 m2 h
  simp [mapMovieToContent, h]

/-- C10 witness: the title-determinism conjunct applied to two distinct
movies sharing the title "Foo Bar". -/
theorem mapMovieToContent_id_from_title_witness :
    (mapMovieToContent ⟨"Foo Bar", "x.mp4", 2010, 1, "1h", [], "x.jpg", none, "dx"⟩).id =
      (mapMovieToContent ⟨"Foo Bar", "y.mp4", 2011, 2, "2h", [], "y.jpg", none, "dy"⟩).id :=
  mapMovieToContent_id_from_title.2.2
    ⟨"Foo Bar", "x.mp4", 2010, 1, "1h", [], "x.jpg", none, "dx"⟩
    ⟨"Foo Bar", "y.mp4", 2011, 2, "2h", [], "y.jpg", none, "dy"⟩ rfl

end StreamVoice
